import Mathlib

/-!
Verification of the Deceptinet honeypot core: the per-identity sliding-window
rate limiter and attack-payload classifier of `backend/honeypots/http_honeypot.py`,
and the SSH fake-shell session engine (virtual filesystem, command dispatch,
line editor, session lifecycle) of `backend/honeypots/ssh_honeypot.py`,
shallowly embedded as executable Lean definitions.

Timestamps are modelled as integers (seconds); `datetime.now()` becomes an
explicit `now` parameter, and mutable per-object state is passed explicitly.
-/

namespace Deceptinet

/-! ## Rate limiter (`http_honeypot.py`, class `RateLimiter`)

State: `max_requests` (capacity), `window_seconds`, and the per-identity map
`requests` (a `defaultdict(list)`: absent identities have the empty window).
Each method that mutates `self.requests` returns the updated limiter. -/

structure RateLimiter where
  max_requests : Nat
  window_seconds : Int
  requests : String → List Int

/-- Point update of the identity-keyed request map (`self.requests[ip] = ...`). -/
def updateReq (f : String → List Int) (ip : String) (l : List Int) : String → List Int :=
  fun k => if k = ip then l else f k

/-- `RateLimiter.is_rate_limited(ip)`: prune entries with `req_time > cutoff`
kept, then either report limited (no append) or append `now`. -/
def is_rate_limited (rl : RateLimiter) (ip : String) (now : Int) : Bool × RateLimiter :=
  let cutoff := now - rl.window_seconds
  let pruned := (rl.requests ip).filter (fun t => cutoff < t)
  if rl.max_requests ≤ pruned.length then
    (true, { rl with requests := updateReq rl.requests ip pruned })
  else
    (false, { rl with requests := updateReq rl.requests ip (pruned ++ [now]) })

/-- `RateLimiter.get_request_count(ip)`: prune, store the pruned window back,
return the surviving count. -/
def get_request_count (rl : RateLimiter) (ip : String) (now : Int) : Nat × RateLimiter :=
  let cutoff := now - rl.window_seconds
  let pruned := (rl.requests ip).filter (fun t => cutoff < t)
  (pruned.length, { rl with requests := updateReq rl.requests ip pruned })

/-- Result record of `RateLimiter.get_stats`. -/
structure Stats where
  request_count : Nat
  limit : Nat
  window_seconds : Int
  is_rate_limited : Bool
deriving DecidableEq

/-- `RateLimiter.get_stats(ip)`: calls `get_request_count` (which prunes) and
packages the derived statistics. -/
def get_stats (rl : RateLimiter) (ip : String) (now : Int) : Stats × RateLimiter :=
  let r := get_request_count rl ip now
  (⟨r.1, rl.max_requests, rl.window_seconds, decide (rl.max_requests ≤ r.1)⟩, r.2)

/-- Iterated `get_request_count` (snapshot) calls with a fixed `now`,
threading the (pruned) state through. -/
def snapshotIter (ip : String) (now : Int) : Nat → RateLimiter → RateLimiter
  | 0, rl => rl
  | n + 1, rl => snapshotIter ip now n (get_request_count rl ip now).2

/-- A fresh limiter with the spec's test parameters: capacity 3, window 60s. -/
def exampleLimiter : RateLimiter := ⟨3, 60, fun _ => []⟩

/-- A limiter whose identity `a` holds one request exactly at timestamp 0. -/
def exampleLimiter2 : RateLimiter := ⟨10, 60, fun k => if k = "a" then [0] else []⟩

/-! ## Python string helpers

`str.strip()` / `str.split()` (whitespace variants), `str.rstrip('/')`,
`str.replace('//', '/')`, `str.startswith`, `buffer[:-1]` — embedded over
`List Char` so everything reduces well. -/

/-- Python whitespace (for `strip`/`split` with no argument). -/
def pyIsSpace (c : Char) : Bool :=
  c = ' ' || c = '\t' || c = '\n' || c = '\r' || c = '\x0b' || c = '\x0c'

/-- Python `str.lower()` (ASCII case folding, which is all the rule-table
inputs exercise). -/
def pyLower (s : String) : String := (s.toList.map Char.toLower).asString

/-- Python `str.strip()`. -/
def pyStrip (s : String) : String :=
  ((s.toList.dropWhile pyIsSpace).reverse.dropWhile pyIsSpace).reverse.asString

/-- Helper for `pySplit`: accumulate the current token (reversed). -/
def splitWsAux : List Char → List Char → List String
  | [], acc => if acc = [] then [] else [acc.reverse.asString]
  | c :: rest, acc =>
    if pyIsSpace c then
      if acc = [] then splitWsAux rest []
      else acc.reverse.asString :: splitWsAux rest []
    else splitWsAux rest (c :: acc)

/-- Python `str.split()` (split on whitespace runs, discarding empties). -/
def pySplit (s : String) : List String := splitWsAux s.toList []

/-- Python `str.startswith(pre)`. -/
def pyStartsWith (s pre : String) : Bool := pre.toList.isPrefixOf s.toList

/-- Python `str.endswith(suf)`. -/
def pyEndsWith (s suf : String) : Bool := suf.toList.isSuffixOf s.toList

/-- Python `str.rstrip('/')`. -/
def rstripSlash (s : String) : String :=
  (s.toList.reverse.dropWhile (fun c => c = '/')).reverse.asString

/-- Python `str.replace('//', '/')` on a character list (leftmost,
non-overlapping occurrences). -/
def replaceDSL : List Char → List Char
  | '/' :: '/' :: rest => '/' :: replaceDSL rest
  | c :: rest => c :: replaceDSL rest
  | [] => []

/-- Python `str.replace('//', '/')`. -/
def replaceDS (s : String) : String := (replaceDSL s.toList).asString

/-- Python `buffer[:-1]` (drop the final character). -/
def strDropLast (s : String) : String := s.toList.dropLast.asString

/-! ## Fake shell (`ssh_honeypot.py`, class `FakeShell`)

Only `cwd` is mutable; `filesystem` and `files` are built once in `__init__`
from the captured username. Commands that mutate `cwd` return the new shell. -/

structure Shell where
  username : String
  hostname : String
  cwd : String
deriving DecidableEq

/-- First-match association-list lookup (the Python dict keys here are
pairwise distinct, so this agrees with dict lookup). -/
def lookupA {α : Type} : List (String × α) → String → Option α
  | [], _ => none
  | (k, v) :: rest, key => if k = key then some v else lookupA rest key

/-- `self.filesystem` as built in `FakeShell.__init__`. -/
def filesystemOf (username : String) : List (String × List String) :=
  [("/", ["bin", "etc", "home", "var", "usr", "tmp"]),
   ("/home", [username, "admin", "user"]),
   ("/home/" ++ username, ["documents", "downloads", ".bash_history", ".ssh"]),
   ("/home/" ++ username ++ "/documents", ["passwords.txt", "notes.txt"]),
   ("/etc", ["passwd", "shadow", "hosts", "ssh"]),
   ("/var", ["log", "www"])]

/-- `self.files` as built in `FakeShell.__init__`. -/
def filesOf (username : String) : List (String × String) :=
  [("/etc/passwd", "root:x:0:0:root:/root:/bin/bash\nubuntu:x:1000:1000::/home/ubuntu:/bin/bash\n"),
   ("/etc/hosts", "127.0.0.1 localhost\n127.0.1.1 ubuntu-server\n"),
   ("/home/" ++ username ++ "/.bash_history", "ls -la\ncd documents\ncat passwords.txt\nexit\n"),
   ("/home/" ++ username ++ "/documents/passwords.txt", "mysql_password: notreal123\nssh_key_pass: fake_password\n")]

/-- `FakeShell.__init__`. -/
def initShell (username : String) : Shell :=
  { username := username, hostname := "ubuntu-server", cwd := "/home/" ++ username }

/-- `FakeShell.get_prompt`. -/
def get_prompt (sh : Shell) : String :=
  sh.username ++ "@" ++ sh.hostname ++ ":" ++ sh.cwd ++ "$ "

/-- `FakeShell._cmd_ls`. -/
def cmd_ls (sh : Shell) (args : List String) : String :=
  let path :=
    match args with
    | [] => sh.cwd
    | a :: _ =>
      if pyStartsWith a ("-") then sh.cwd
      else if pyStartsWith a ("/") then a
      else sh.cwd ++ "/" ++ a
  let path := rstripSlash path
  let path := if path = "" then "/" else path
  match lookupA (filesystemOf sh.username) path with
  | some children => String.intercalate ("  ") children
  | none => "ls: cannot access \x27" ++ path ++ "\x27: No such file or directory"

/-- The path normalization `_cmd_ls` applies before lookup: strip trailing
slashes; an emptied path becomes the root. -/
def normalizeP (p : String) : String :=
  let q := rstripSlash p
  if q = "" then "/" else q

/-- Listing of a (not yet normalized) directory path, exactly as `_cmd_ls`
renders it: the doubly-space-joined ordered child names of the resolved
directory node, or the "No such file or directory" error when the normalized
path is not a key of the virtual filesystem. -/
def dirListing (sh : Shell) (p : String) : String :=
  match lookupA (filesystemOf sh.username) (normalizeP p) with
  | some children => String.intercalate ("  ") children
  | none => "ls: cannot access \x27" ++ normalizeP p ++ "\x27: No such file or directory"

/-- `_cmd_cd`'s resolution of a path argument: taken verbatim if absolute,
else concatenated onto `cwd` with `//` collapsed. -/
def cdTarget (sh : Shell) (a : String) : String :=
  if pyStartsWith a ("/") then a else replaceDS (sh.cwd ++ "/" ++ a)

/-- `FakeShell._cmd_cat`. -/
def cmd_cat (sh : Shell) (args : List String) : String :=
  match args with
  | [] => "cat: missing file operand"
  | a :: _ =>
    let filepath := if pyStartsWith a ("/") then a else sh.cwd ++ "/" ++ a
    match lookupA (filesOf sh.username) filepath with
    | some content => content
    | none => "cat: " ++ a ++ ": No such file or directory"

/-- `FakeShell._cmd_uname`. -/
def cmd_uname (args : List String) : String :=
  if args.contains ("-a") then
    "Linux ubuntu-server 5.15.0-56-generic #62-Ubuntu SMP x86_64 GNU/Linux"
  else "Linux"

/-- `FakeShell._cmd_cd`; returns the (possibly updated) shell and the textual
response (empty on success). -/
def cmd_cd (sh : Shell) (args : List String) : Shell × String :=
  match args with
  | [] => ({ sh with cwd := "/home/" ++ sh.username }, "")
  | a :: _ =>
    let target := if pyStartsWith a ("/") then a else replaceDS (sh.cwd ++ "/" ++ a)
    if (lookupA (filesystemOf sh.username) target).isSome || pyStartsWith target ("/home/") then
      ({ sh with cwd := target }, "")
    else
      (sh, "bash: cd: " ++ a ++ ": No such file or directory")

/-- `FakeShell.execute_command`; `none` is the Python `None` sentinel
returned for `exit`. -/
def execute_command (sh : Shell) (cmd0 : String) : Shell × Option String :=
  let cmd := pyStrip cmd0
  if cmd = "" then (sh, some (""))
  else
    match pySplit cmd with
    | [] => (sh, some (""))   -- unreachable: a non-empty stripped string yields a token
    | command :: args =>
      if command = "ls" then (sh, some (cmd_ls sh args))
      else if command = "pwd" then (sh, some sh.cwd)
      else if command = "whoami" then (sh, some sh.username)
      else if command = "cat" then (sh, some (cmd_cat sh args))
      else if command = "uname" then (sh, some (cmd_uname args))
      else if command = "cd" then
        let r := cmd_cd sh args
        (r.1, some r.2)
      else if command = "help" then
        (sh, some ("Available commands: ls, pwd, whoami, cat, uname, cd, exit"))
      else if command = "exit" then (sh, none)
      else (sh, some ("-bash: " ++ command ++ ": command not found"))

/-! ## Session loop (`ssh_honeypot.py`, `handle_client`)

The interactive loop is embedded as a step function on a loop state
(shell, command history, input buffer).  A step consumes one character of
decoded input and yields the new state, the bytes sent back, and whether the
session was closed (the `exit` path).  Received chunks and transport-level
events (remote disconnect, transport failure) form the input trace. -/

structure LoopState where
  shell : Shell
  commands : List String
  buffer : String
deriving DecidableEq

structure StepOut where
  st : LoopState
  sent : String
  closed : Bool
deriving DecidableEq

/-- One iteration of `for char in data` in `handle_client`. -/
def processChar (st : LoopState) (c : Char) : StepOut :=
  if c = '\r' ∨ c = '\n' then
    if pyStrip st.buffer ≠ "" then
      let r := execute_command st.shell st.buffer
      let cmds := st.commands ++ [pyStrip st.buffer]
      match r.2 with
      | none => ⟨⟨r.1, cmds, st.buffer⟩, "\r\nLogout\r\n", true⟩
      | some result =>
        ⟨⟨r.1, cmds, ""⟩,
         (if result ≠ "" then "\r\n" ++ result ++ "\r\n" else "") ++ get_prompt r.1,
         false⟩
    else ⟨st, get_prompt st.shell, false⟩
  else if c = '\x7f' then
    if st.buffer ≠ "" then ⟨⟨st.shell, st.commands, strDropLast st.buffer⟩, "\x08 \x08", false⟩
    else ⟨st, "", false⟩
  else if c = '\x03' then
    ⟨⟨st.shell, st.commands, ""⟩, "^C\r\n" ++ get_prompt st.shell, false⟩
  else
    ⟨⟨st.shell, st.commands, st.buffer.push c⟩, String.singleton c, false⟩

/-- Process one received chunk; the inner `break` on `exit` abandons the rest
of the chunk. -/
def processChars (st : LoopState) : List Char → LoopState × String × Bool
  | [] => (st, "", false)
  | c :: rest =>
    let o := processChar st c
    if o.closed then (o.st, o.sent, true)
    else
      let r := processChars o.st rest
      (r.1, o.sent ++ r.2.1, r.2.2)

/-- Input trace items for one session: a decoded received chunk, a
remote-initiated disconnect (the channel turns inactive), or a transport
failure (an exception escaping the interaction loop). -/
inductive InEvent where
  | recv (s : List Char)
  | remoteClose
  | transportFail
deriving DecidableEq

/-- How the interaction loop ended. -/
inductive EndKind where
  | exitCmd
  | remote
  | failed
  | stillOpen
deriving DecidableEq

/-- The `while True` loop of `handle_client` over an input trace. -/
def runLoop (st : LoopState) : List InEvent → LoopState × EndKind
  | [] => (st, EndKind.stillOpen)
  | InEvent.recv s :: rest =>
    let r := processChars st s
    if r.2.2 then (r.1, EndKind.exitCmd) else runLoop r.1 rest
  | InEvent.remoteClose :: _ => (st, EndKind.remote)
  | InEvent.transportFail :: _ => (st, EndKind.failed)

/-- The payload of `SessionLogger.log_session` relevant to the session
summary: captured username and the ordered command history. -/
structure SummaryEvent where
  username : String
  commands : List String
deriving DecidableEq

/-- `handle_client` over an input trace: run the loop, then — mirroring the
source, where `log_session` sits after the loop inside the `try` block — emit
the single summary event only when the loop exited normally; an exception
(transport failure) jumps to the `except` handler, which logs nothing. -/
def handle_client_events (username : String) (evs : List InEvent) :
    List SummaryEvent × LoopState × EndKind :=
  let r := runLoop ⟨initShell username, [], ""⟩ evs
  match r.2 with
  | EndKind.failed => ([], r.1, r.2)
  | EndKind.stillOpen => ([], r.1, r.2)
  | _ => ([⟨username, r.1.commands⟩], r.1, r.2)

/-- Whether the session is over (the spec's CLOSED state): explicit `exit`,
remote disconnect, or transport failure all end the session. -/
def sessionClosed : EndKind → Bool
  | EndKind.exitCmd => true
  | EndKind.remote => true
  | EndKind.failed => true
  | EndKind.stillOpen => false

/-! ## Regular-expression engine (for `http_honeypot.py`, class `AttackDetector`)

A small executable matcher for the constructs the rule tables use:
literals, `.` (any char except newline), character classes, `\s`, `\b`,
alternation, concatenation and `*` (with `+` and `?` as derived forms).
All character comparisons are case-insensitive, matching the
`re.IGNORECASE` flag every detector passes.  The matcher is fuel-indexed
for structural termination; `reSearch` supplies ample fuel, so on the
inputs evaluated here it computes exactly `re.search`'s "is there a match
anywhere" answer. -/

inductive RE where
  | eps
  | anyc
  | lit (c : Char)
  | cls (cs : List Char) (neg : Bool)
  | wsp
  | wordB
  | alt (a b : RE)
  | cat (a b : RE)
  | star (r : RE)
deriving DecidableEq

/-- Case-insensitive character comparison (`re.IGNORECASE`). -/
def charMatch (c d : Char) : Bool := c.toLower = d.toLower

/-- Character-class membership, case-insensitive. -/
def clsMatch (cs : List Char) (neg : Bool) (d : Char) : Bool :=
  let m := cs.any (fun c => charMatch c d)
  if neg then !m else m

/-- The `\s` class (ASCII whitespace as in `re`). -/
def wspChars : List Char := [' ', '\t', '\n', '\r', '\x0b', '\x0c']

/-- Word character for `\b` (`[A-Za-z0-9_]`). -/
def isWordChar (c : Char) : Bool := c.isAlpha || c.isDigit || c = '_'

/-- Size of a regex, used to bound the matcher fuel. -/
def reSize : RE → Nat
  | RE.eps => 1
  | RE.anyc => 1
  | RE.lit _ => 1
  | RE.cls _ _ => 1
  | RE.wsp => 1
  | RE.wordB => 1
  | RE.alt a b => reSize a + reSize b + 1
  | RE.cat a b => reSize a + reSize b + 1
  | RE.star r => reSize r + 1

/-- Match a regex against a prefix of `s`; `prev` is the character just
before `s` (for `\b`).  Returns the list of possible `(prev, remainder)`
continuations.  Fuel decreases at every recursive call; `star` unrolls only
on strict progress, so ample fuel makes the answer exact. -/
def mrun : Nat → RE → Option Char → List Char → List (Option Char × List Char)
  | 0, _, _, _ => []
  | _ + 1, RE.eps, prev, s => [(prev, s)]
  | _ + 1, RE.anyc, _, s =>
    match s with
    | [] => []
    | c :: r => if c = '\n' then [] else [(some c, r)]
  | _ + 1, RE.lit c, _, s =>
    match s with
    | [] => []
    | d :: r => if charMatch c d then [(some d, r)] else []
  | _ + 1, RE.cls cs neg, _, s =>
    match s with
    | [] => []
    | d :: r => if clsMatch cs neg d then [(some d, r)] else []
  | _ + 1, RE.wsp, _, s =>
    match s with
    | [] => []
    | d :: r => if wspChars.contains d then [(some d, r)] else []
  | _ + 1, RE.wordB, prev, s =>
    let a := match prev with | some c => isWordChar c | none => false
    let b := match s with | c :: _ => isWordChar c | [] => false
    if a ≠ b then [(prev, s)] else []
  | f + 1, RE.alt a b, prev, s => mrun f a prev s ++ mrun f b prev s
  | f + 1, RE.cat a b, prev, s =>
    (mrun f a prev s).flatMap (fun pr => mrun f b pr.1 pr.2)
  | f + 1, RE.star r, prev, s =>
    (prev, s) :: (mrun f r prev s).flatMap (fun pr =>
      if pr.2.length < s.length then mrun f (RE.star r) pr.1 pr.2 else [])

/-- Is there a match of `r` starting exactly at `s` (context `prev`)? -/
def matchAt (r : RE) (prev : Option Char) (s : List Char) : Bool :=
  mrun ((s.length + 1) * (reSize r + 2)) r prev s ≠ []

/-- Try every start position, threading the previous character. -/
def searchFrom (r : RE) : Option Char → List Char → Bool
  | prev, [] => matchAt r prev []
  | prev, c :: rest => matchAt r prev (c :: rest) || searchFrom r (some c) rest

/-- `re.search(pattern, text, re.IGNORECASE) is not None`. -/
def reSearch (r : RE) (s : String) : Bool := searchFrom r none s.toList

/-- Literal string regex. -/
def rstr (s : String) : RE := s.toList.foldr (fun c r => RE.cat (RE.lit c) r) RE.eps

/-- Concatenation of a list of regexes. -/
def rcat (l : List RE) : RE := l.foldr RE.cat RE.eps

/-- `r?` (greedy optionality; equivalent for match existence). -/
def ropt (r : RE) : RE := RE.alt r RE.eps

/-- `r+`. -/
def rplus (r : RE) : RE := RE.cat r (RE.star r)

/-- `\s*`. -/
def ws0 : RE := RE.star RE.wsp

/-- `\s+`. -/
def ws1 : RE := rplus RE.wsp

/-- `.*` (also used for the lazy `.*?`, identical for match existence). -/
def anys : RE := RE.star RE.anyc

/-- The `['\"]` class (single or double quote). -/
def quoteCls : RE := RE.cls ['\x27', '"'] false

/-- `[^>]*`. -/
def noGt : RE := RE.star (RE.cls ['>'] true)

/-- `[0-9a-f]+`. -/
def hexPlus : RE := rplus (RE.cls (("0123456789abcdef").toList) false)

/-! ## Rule tables (`AttackDetector.*_PATTERNS`)

Each rule is the source's pattern string (the rule identifier reported by
the detectors) paired with its transcription into the `RE` syntax. -/

def SQL_PATTERNS : List (String × RE) :=
  [("(\\bunion\\b.*\\bselect\\b)",
    rcat [RE.wordB, rstr ("union"), RE.wordB, anys, RE.wordB, rstr ("select"), RE.wordB]),
   ("(\\bor\\b\\s+[\x27\\\"]?1[\x27\\\"]?\\s*=\\s*[\x27\\\"]?1)",
    rcat [RE.wordB, rstr ("or"), RE.wordB, ws1, ropt quoteCls, RE.lit '1', ropt quoteCls,
          ws0, RE.lit '=', ws0, ropt quoteCls, RE.lit '1']),
   ("(\\bor\\b\\s+[\x27\\\"]?true[\x27\\\"]?)",
    rcat [RE.wordB, rstr ("or"), RE.wordB, ws1, ropt quoteCls, rstr ("true"), ropt quoteCls]),
   ("(;.*drop\\s+table)",
    rcat [RE.lit ';', anys, rstr ("drop"), ws1, rstr ("table")]),
   ("(;.*delete\\s+from)",
    rcat [RE.lit ';', anys, rstr ("delete"), ws1, rstr ("from")]),
   ("(;.*insert\\s+into)",
    rcat [RE.lit ';', anys, rstr ("insert"), ws1, rstr ("into")]),
   ("(;.*update\\s+.*set)",
    rcat [RE.lit ';', anys, rstr ("update"), ws1, anys, rstr ("set")]),
   ("(\x27|\\\")(\\s*)(or|and)(\\s*)(\x27|\\\"|1|true)",
    rcat [RE.alt (RE.lit '\x27') (RE.lit '"'), ws0, RE.alt (rstr ("or")) (rstr ("and")), ws0,
          RE.alt (RE.lit '\x27') (RE.alt (RE.lit '"') (RE.alt (RE.lit '1') (rstr ("true"))))]),
   ("(exec\\s*\\()", rcat [rstr ("exec"), ws0, RE.lit '(']),
   ("(execute\\s+immediate)", rcat [rstr ("execute"), ws1, rstr ("immediate")]),
   ("(benchmark\\s*\\()", rcat [rstr ("benchmark"), ws0, RE.lit '(']),
   ("(sleep\\s*\\()", rcat [rstr ("sleep"), ws0, RE.lit '(']),
   ("(waitfor\\s+delay)", rcat [rstr ("waitfor"), ws1, rstr ("delay")]),
   ("(--|\\#|\\/\\*)", RE.alt (rstr ("--")) (RE.alt (RE.lit '#') (rstr ("/*")))),
   ("(char\\s*\\()", rcat [rstr ("char"), ws0, RE.lit '(']),
   ("(concat\\s*\\()", rcat [rstr ("concat"), ws0, RE.lit '(']),
   ("(0x[0-9a-f]+)", rcat [RE.lit '0', RE.lit 'x', hexPlus])]

def XSS_PATTERNS : List (String × RE) :=
  [("(<script[^>]*>.*?</script>)",
    rcat [RE.lit '<', rstr ("script"), noGt, RE.lit '>', anys,
          RE.lit '<', RE.lit '/', rstr ("script"), RE.lit '>']),
   ("(<script[^>]*>)", rcat [RE.lit '<', rstr ("script"), noGt, RE.lit '>']),
   ("(javascript:)", rstr ("javascript:")),
   ("(onerror\\s*=)", rcat [rstr ("onerror"), ws0, RE.lit '=']),
   ("(onload\\s*=)", rcat [rstr ("onload"), ws0, RE.lit '=']),
   ("(onclick\\s*=)", rcat [rstr ("onclick"), ws0, RE.lit '=']),
   ("(onmouseover\\s*=)", rcat [rstr ("onmouseover"), ws0, RE.lit '=']),
   ("(<iframe[^>]*>)", rcat [RE.lit '<', rstr ("iframe"), noGt, RE.lit '>']),
   ("(<object[^>]*>)", rcat [RE.lit '<', rstr ("object"), noGt, RE.lit '>']),
   ("(<embed[^>]*>)", rcat [RE.lit '<', rstr ("embed"), noGt, RE.lit '>']),
   ("(<img[^>]*onerror)", rcat [RE.lit '<', rstr ("img"), noGt, rstr ("onerror")]),
   ("(<svg[^>]*onload)", rcat [RE.lit '<', rstr ("svg"), noGt, rstr ("onload")]),
   ("(eval\\s*\\()", rcat [rstr ("eval"), ws0, RE.lit '(']),
   ("(alert\\s*\\()", rcat [rstr ("alert"), ws0, RE.lit '(']),
   ("(prompt\\s*\\()", rcat [rstr ("prompt"), ws0, RE.lit '(']),
   ("(confirm\\s*\\()", rcat [rstr ("confirm"), ws0, RE.lit '(']),
   ("(document\\.cookie)", rcat [rstr ("document"), RE.lit '.', rstr ("cookie")]),
   ("(document\\.write)", rcat [rstr ("document"), RE.lit '.', rstr ("write")])]

def PATH_TRAVERSAL_PATTERNS : List (String × RE) :=
  [("(\\.\\.\\/|\\.\\.\\\\)", RE.alt (rstr ("../")) (rstr ("..\\"))),
   ("(%2e%2e%2f|%2e%2e/|..%2f|%2e%2e%5c)",
    RE.alt (rstr ("%2e%2e%2f"))
      (RE.alt (rstr ("%2e%2e/"))
        (RE.alt (rcat [RE.anyc, RE.anyc, rstr ("%2f")]) (rstr ("%2e%2e%5c"))))),
   ("(\\/etc\\/passwd)", rstr ("/etc/passwd")),
   ("(\\/windows\\/system32)", rstr ("/windows/system32"))]

def COMMAND_INJECTION_PATTERNS : List (String × RE) :=
  [("(;\\s*ls\\s)", rcat [RE.lit ';', ws0, rstr ("ls"), RE.wsp]),
   ("(;\\s*cat\\s)", rcat [RE.lit ';', ws0, rstr ("cat"), RE.wsp]),
   ("(;\\s*wget\\s)", rcat [RE.lit ';', ws0, rstr ("wget"), RE.wsp]),
   ("(;\\s*curl\\s)", rcat [RE.lit ';', ws0, rstr ("curl"), RE.wsp]),
   ("(\\|\\s*nc\\s)", rcat [RE.lit '|', ws0, rstr ("nc"), RE.wsp]),
   ("(\\&\\&\\s*id)", rcat [RE.lit '&', RE.lit '&', ws0, rstr ("id")]),
   ("(\x60.*\x60)", rcat [RE.lit '\x60', anys, RE.lit '\x60']),
   ("(\\$\\(.*\\))", rcat [RE.lit '$', RE.lit '(', anys, RE.lit ')'])]

/-! ## Detectors (`AttackDetector` static methods) -/

/-- `AttackDetector.detect_sql_injection` (matches against the lower-cased
input). -/
def detect_sql_injection (text : String) : List String :=
  (SQL_PATTERNS.filter (fun pr => reSearch pr.2 (pyLower text))).map
    (fun pr => "SQL_INJECTION: " ++ pr.1)

/-- `AttackDetector.detect_xss` (matches against the lower-cased input). -/
def detect_xss (text : String) : List String :=
  (XSS_PATTERNS.filter (fun pr => reSearch pr.2 (pyLower text))).map
    (fun pr => "XSS: " ++ pr.1)

/-- `AttackDetector.detect_path_traversal` (matches against the raw input,
case-insensitively). -/
def detect_path_traversal (text : String) : List String :=
  (PATH_TRAVERSAL_PATTERNS.filter (fun pr => reSearch pr.2 text)).map
    (fun pr => "PATH_TRAVERSAL: " ++ pr.1)

/-- `AttackDetector.detect_command_injection` (matches against the raw input,
case-insensitively). -/
def detect_command_injection (text : String) : List String :=
  (COMMAND_INJECTION_PATTERNS.filter (fun pr => reSearch pr.2 text)).map
    (fun pr => "COMMAND_INJECTION: " ++ pr.1)

/-- Result of `AttackDetector.analyze_payload`. -/
structure ClassificationResult where
  is_malicious : Bool
  attack_types : List String
  patterns_detected : List String
deriving DecidableEq

/-- `AttackDetector.analyze_payload`. -/
def analyze_payload (text : String) : ClassificationResult :=
  let sql := detect_sql_injection text
  let xss := detect_xss text
  let path := detect_path_traversal text
  let cmd := detect_command_injection text
  let all := sql ++ xss ++ path ++ cmd
  if all ≠ [] then
    { is_malicious := true
      attack_types :=
        (if sql ≠ [] then ["SQL_INJECTION"] else []) ++
        (if xss ≠ [] then ["XSS"] else []) ++
        (if path ≠ [] then ["PATH_TRAVERSAL"] else []) ++
        (if cmd ≠ [] then ["COMMAND_INJECTION"] else [])
      patterns_detected := all }
  else { is_malicious := false, attack_types := [], patterns_detected := [] }

/-! Helper lemmas about the request map and pruning. -/

theorem updateReq_same (f : String → List Int) (ip : String) (l : List Int) :
    updateReq f ip l ip = l := by simp [updateReq]

theorem updateReq_other (f : String → List Int) (ip : String) (l : List Int)
    (k : String) (h : k ≠ ip) : updateReq f ip l k = f k := by simp [updateReq, h]

theorem updateReq_idem (f : String → List Int) (ip : String) (l : List Int) :
    updateReq (updateReq f ip l) ip l = updateReq f ip l := by
  funext k
  by_cases h : k = ip <;> simp [updateReq, h]

theorem filter_idem {α : Type} (p : α → Bool) (l : List α) :
    (l.filter p).filter p = l.filter p := by
  induction l with
  | nil => rfl
  | cons a l ih =>
    by_cases h : p a <;> simp [List.filter_cons, h, ih]

theorem snapshot_idem (rl : RateLimiter) (ip : String) (now : Int) :
    get_request_count (get_request_count rl ip now).2 ip now =
      ((get_request_count rl ip now).1, (get_request_count rl ip now).2) := by
  simp only [get_request_count, updateReq_same, filter_idem, updateReq_idem]

theorem startsWith_slash_not_dash (a : String) (h : pyStartsWith a ("/") = true) :
    pyStartsWith a ("-") = false := by
  have h' : ['/'].isPrefixOf a.toList = true := h
  show ['-'].isPrefixOf a.toList = false
  cases ha : a.toList with
  | nil => rw [ha] at h'; simp [List.isPrefixOf] at h'
  | cons c l =>
    rw [ha] at h'
    simp [List.isPrefixOf] at h' ⊢
    rw [← h']
    decide

/-- Claim C1 (amended): a session closed by an explicit exit command or by a
remote-initiated disconnect emits exactly one session summary carrying the
full ordered command history; a session terminated by a transport failure at
any point of the interactive loop emits no summary at all — the exception
path of the handler skips the summary flush, so the partial history is lost
rather than flushed. -/
theorem C1_session_summary :
    ∀ (u : String) (evs : List InEvent),
      (((handle_client_events u evs).2.2 = EndKind.exitCmd ∨
          (handle_client_events u evs).2.2 = EndKind.remote) →
        (handle_client_events u evs).1 =
          [⟨u, (handle_client_events u evs).2.1.commands⟩]) ∧
      ((handle_client_events u evs).2.2 = EndKind.failed →
        (handle_client_events u evs).1 = []) := by
  intro u evs
  simp only [handle_client_events]
  rcases hr : runLoop ⟨initShell u, [], ""⟩ evs with ⟨st, ek⟩
  cases ek <;> simp

/-- Witness for C1: an exit-terminated session yields exactly the one summary
event with history `["exit"]`. -/
theorem C1_witness :
    (handle_client_events ("root") [InEvent.recv (("exit\r").toList)]).1 =
      [⟨"root", ["exit"]⟩] := by
  have h := (C1_session_summary ("root") [InEvent.recv (("exit\r").toList)]).1
    (Or.inl (by decide))
  rw [h]
  decide

/-- Counterexample to C1 as stated: a transport failure right after one
command closes the session (the spec counts this as reaching CLOSED) with
partial history `["ls"]`, yet zero session-summary events are emitted —
not exactly one carrying the partial history. -/
theorem C1_counterexample :
    sessionClosed
        (handle_client_events ("root")
          [InEvent.recv (("ls\r").toList), InEvent.transportFail]).2.2 = true ∧
    (handle_client_events ("root")
        [InEvent.recv (("ls\r").toList), InEvent.transportFail]).2.1.commands = ["ls"] ∧
    (handle_client_events ("root")
        [InEvent.recv (("ls\r").toList), InEvent.transportFail]).1.length = 0 := by
  decide

/-- Claim C2: an attempt (`is_rate_limited`) first prunes the window of the
identity; if the surviving count is at least the capacity it returns limited
and stores the pruned window unchanged (no append), otherwise it appends
`now` and returns not limited.  Consequently with capacity 3 and window 60s,
three attempts in the window return false, a fourth returns true, and an
attempt after the window has passed returns false again. -/
theorem C2_attempt_contract :
    (∀ (rl : RateLimiter) (ip : String) (now : Int),
      (rl.max_requests ≤
          ((rl.requests ip).filter (fun t => now - rl.window_seconds < t)).length →
        is_rate_limited rl ip now =
          (true, ⟨rl.max_requests, rl.window_seconds, updateReq rl.requests ip
            ((rl.requests ip).filter (fun t => now - rl.window_seconds < t))⟩)) ∧
      (((rl.requests ip).filter (fun t => now - rl.window_seconds < t)).length <
          rl.max_requests →
        is_rate_limited rl ip now =
          (false, ⟨rl.max_requests, rl.window_seconds, updateReq rl.requests ip
            (((rl.requests ip).filter (fun t => now - rl.window_seconds < t)) ++ [now])⟩))) ∧
    (let r1 := is_rate_limited exampleLimiter ("a") 0
     let r2 := is_rate_limited r1.2 ("a") 10
     let r3 := is_rate_limited r2.2 ("a") 20
     let r4 := is_rate_limited r3.2 ("a") 30
     let r5 := is_rate_limited r4.2 ("a") 90
     r1.1 = false ∧ r2.1 = false ∧ r3.1 = false ∧ r4.1 = true ∧ r5.1 = false) := by
  refine ⟨fun rl ip now => ⟨fun h => ?_, fun h => ?_⟩, by decide⟩
  · simp only [is_rate_limited]
    rw [if_pos h]
  · simp only [is_rate_limited]
    rw [if_neg (Nat.not_le.mpr h)]

/-- Witness for C2: the first attempt on a fresh limiter is not limited. -/
theorem C2_witness : (is_rate_limited exampleLimiter ("a") 0).1 = false := by
  have h := (C2_attempt_contract.1 exampleLimiter ("a") 0).2 (by decide)
  rw [h]

/-- Claim C3: a snapshot (`get_request_count` / `get_stats`) never appends an
entry: the stored window is a sublist of the old one, other identities are
untouched, the set of surviving timestamps is unchanged, any number of
repeated snapshots at a fixed `now` returns the same count, and `get_stats`
reports exactly the snapshot count and threshold comparison. -/
theorem C3_snapshot_pure :
    ∀ (rl : RateLimiter) (ip : String) (now : Int),
      List.Sublist ((get_request_count rl ip now).2.requests ip) (rl.requests ip) ∧
      (∀ k, k ≠ ip → (get_request_count rl ip now).2.requests k = rl.requests k) ∧
      (((get_request_count rl ip now).2.requests ip).filter
          (fun t => now - rl.window_seconds < t) =
        (rl.requests ip).filter (fun t => now - rl.window_seconds < t)) ∧
      (∀ n : Nat,
        (get_request_count (snapshotIter ip now n rl) ip now).1 =
          (get_request_count rl ip now).1) ∧
      get_stats rl ip now =
        (⟨(get_request_count rl ip now).1, rl.max_requests, rl.window_seconds,
          decide (rl.max_requests ≤ (get_request_count rl ip now).1)⟩,
         (get_request_count rl ip now).2) := by
  have key : ∀ (ip : String) (now : Int) (n : Nat) (rl : RateLimiter),
      (get_request_count (snapshotIter ip now n rl) ip now).1 =
        (get_request_count rl ip now).1 := by
    intro ip now n
    induction n with
    | zero => intro rl; rfl
    | succ n ih =>
      intro rl
      have h2 := congrArg Prod.fst (snapshot_idem rl ip now)
      simpa [snapshotIter, ih] using h2
  intro rl ip now
  refine ⟨?_, fun k h => ?_, ?_, fun n => key ip now n rl, rfl⟩
  · simp only [get_request_count, updateReq_same]
    exact List.filter_sublist _
  · simp only [get_request_count]
    exact updateReq_other _ _ _ _ h
  · simp only [get_request_count, updateReq_same, filter_idem]

/-- Witness for C3: a snapshot of identity `a` leaves the window of the
distinct identity `b` untouched. -/
theorem C3_witness :
    (get_request_count exampleLimiter2 ("a") 60).2.requests ("b") = [] := by
  have h := (C3_snapshot_pure exampleLimiter2 ("a") 60).2.1 ("b") (by decide)
  rw [h]
  decide

/-- Claim C4 (amended): the prune retains exactly the entries strictly newer
than `now - window_duration`; an entry timestamped exactly `now -
window_duration` is removed, not retained.  For an attempt, the resulting
window consists of exactly those survivors plus, when not limited, the
appended `now`. -/
theorem C4_prune_boundary :
    ∀ (rl : RateLimiter) (ip : String) (now t : Int),
      (t ∈ (get_request_count rl ip now).2.requests ip ↔
        t ∈ rl.requests ip ∧ now - rl.window_seconds < t) ∧
      (t ∈ (is_rate_limited rl ip now).2.requests ip ↔
        ((t ∈ rl.requests ip ∧ now - rl.window_seconds < t) ∨
         ((is_rate_limited rl ip now).1 = false ∧ t = now))) := by
  intro rl ip now t
  constructor
  · simp [get_request_count, updateReq_same, List.mem_filter]
  · by_cases h : rl.max_requests ≤
        ((rl.requests ip).filter (fun t => now - rl.window_seconds < t)).length
    · simp only [is_rate_limited]
      rw [if_pos h]
      simp [updateReq_same, List.mem_filter]
    · simp only [is_rate_limited]
      rw [if_neg h]
      simp [updateReq_same, List.mem_filter, List.mem_append]

/-- Counterexample to C4 as stated: with window 60 and a single entry at
timestamp 0, a prune at `now = 60` drops the entry even though its timestamp
equals `now - window_duration` exactly (it is not older than the window),
whereas the claim requires it to be retained. -/
theorem C4_counterexample :
    (0 : Int) ∈ exampleLimiter2.requests ("a") ∧
    (0 : Int) = 60 - exampleLimiter2.window_seconds ∧
    (get_request_count exampleLimiter2 ("a") 60).2.requests ("a") = [] ∧
    (get_request_count exampleLimiter2 ("a") 60).1 = 0 := by decide

/-- Claim C5: `ls` resolves its path operand absolute if it starts with a
slash, else relative to `cwd`; a leading flag token beginning with a dash is
ignored for path resolution (the listing falls back to `cwd`); the output is
the double-space-joined ordered child names of the resolved directory after
trailing-slash normalization, or the no-such-directory error otherwise; at
the root, `ls` lists the configured children in order. -/
theorem C5_ls :
    ∀ (sh : Shell) (a : String) (rest : List String),
      cmd_ls sh [] = dirListing sh sh.cwd ∧
      (pyStartsWith a ("-") = true → cmd_ls sh (a :: rest) = dirListing sh sh.cwd) ∧
      (pyStartsWith a ("/") = true → cmd_ls sh (a :: rest) = dirListing sh a) ∧
      (pyStartsWith a ("-") = false → pyStartsWith a ("/") = false →
        cmd_ls sh (a :: rest) = dirListing sh (sh.cwd ++ "/" ++ a)) ∧
      (∀ p children,
        lookupA (filesystemOf sh.username) (normalizeP p) = some children →
          dirListing sh p = String.intercalate ("  ") children) ∧
      (∀ p,
        lookupA (filesystemOf sh.username) (normalizeP p) = none →
          dirListing sh p =
            "ls: cannot access \x27" ++ normalizeP p ++ "\x27: No such file or directory") ∧
      cmd_ls ⟨"root", "ubuntu-server", "/"⟩ [] = "bin  etc  home  var  usr  tmp" := by
  intro sh a rest
  refine ⟨?_, fun h => ?_, fun h => ?_, fun h1 h2 => ?_, fun p children h => ?_,
    fun p h => ?_, by decide⟩
  · simp only [cmd_ls, dirListing, normalizeP]
  · simp only [cmd_ls, dirListing, normalizeP, h, if_true]
  · have h2 := startsWith_slash_not_dash a h
    simp only [cmd_ls, dirListing, normalizeP, h, h2, Bool.false_eq_true, if_false, if_true]
  · simp only [cmd_ls, dirListing, normalizeP, h1, h2, Bool.false_eq_true, if_false]
  · simp only [dirListing, h]
  · simp only [dirListing, h]

/-- Witness for C5: with a leading flag token, `ls` lists the current
directory (the flag is not treated as a path operand). -/
theorem C5_witness :
    cmd_ls ⟨"root", "ubuntu-server", "/etc"⟩ ["-la", "/"] = "passwd  shadow  hosts  ssh" := by
  have h := ((C5_ls ⟨"root", "ubuntu-server", "/etc"⟩ ("-la") ["/"]).2.1) (by decide)
  rw [h]
  decide

/-- Claim C6: `cd` with an argument accepts the resolved target (setting
`cwd` to it) iff the target is a known directory node of the virtual
filesystem or its resolved path begins with the `/home/` prefix; in every
other case it returns the no-such-directory error and leaves `cwd`
unchanged.  With no argument it sets `cwd` to the home directory of the
captured username. -/
theorem C6_cd :
    ∀ (sh : Shell) (a : String) (rest : List String),
      cmd_cd sh [] = (⟨sh.username, sh.hostname, "/home/" ++ sh.username⟩, "") ∧
      (((lookupA (filesystemOf sh.username) (cdTarget sh a)).isSome = true ∨
          pyStartsWith (cdTarget sh a) ("/home/") = true) →
        cmd_cd sh (a :: rest) = (⟨sh.username, sh.hostname, cdTarget sh a⟩, "")) ∧
      ((lookupA (filesystemOf sh.username) (cdTarget sh a) = none ∧
          pyStartsWith (cdTarget sh a) ("/home/") = false) →
        cmd_cd sh (a :: rest) =
          (sh, "bash: cd: " ++ a ++ ": No such file or directory")) := by
  intro sh a rest
  refine ⟨rfl, fun h => ?_, fun h => ?_⟩
  · have hb : ((lookupA (filesystemOf sh.username) (cdTarget sh a)).isSome ||
        pyStartsWith (cdTarget sh a) ("/home/")) = true := by
      rcases h with h | h <;> simp [h]
    simp only [cmd_cd, cdTarget] at hb ⊢
    rw [if_pos hb]
  · have hb : ((lookupA (filesystemOf sh.username) (cdTarget sh a)).isSome ||
        pyStartsWith (cdTarget sh a) ("/home/")) = false := by
      simp [h.1, h.2]
    simp only [cmd_cd, cdTarget] at hb ⊢
    rw [if_neg]
    simp [hb]

/-- Witness for C6: navigating into an unlisted home subdirectory succeeds
via the home-prefix fallback. -/
theorem C6_witness :
    cmd_cd ⟨"root", "ubuntu-server", "/home/root"⟩ ["projects"] =
      (⟨"root", "ubuntu-server", "/home/root/projects"⟩, "") := by
  have h := (C6_cd ⟨"root", "ubuntu-server", "/home/root"⟩ ("projects") []).2.1
    (Or.inr (by decide))
  rw [h]
  decide

/-- Claim C7: every character of the interactive stream other than
carriage-return, line-feed, backspace (0x7F) and interrupt (0x03) —
including unrecognized control characters — is treated as printable: it is
appended to the input buffer and echoed back, the session is not closed, and
processing is total (never fatal). -/
theorem C7_printable :
    ∀ (st : LoopState) (c : Char),
      c ≠ '\r' → c ≠ '\n' → c ≠ '\x7f' → c ≠ '\x03' →
      processChar st c =
        ⟨⟨st.shell, st.commands, st.buffer.push c⟩, String.singleton c, false⟩ := by
  intro st c h1 h2 h3 h4
  simp [processChar, h1, h2, h3, h4]

/-- Witness for C7: the unrecognized control byte 0x1B (escape) is buffered
and echoed like a printable character. -/
theorem C7_witness :
    processChar ⟨initShell ("root"), [], ""⟩ '\x1b' =
      ⟨⟨initShell ("root"), [], ("" : String).push '\x1b'⟩, String.singleton '\x1b', false⟩ :=
  C7_printable ⟨initShell ("root"), [], ""⟩ '\x1b' (by decide) (by decide) (by decide) (by decide)

/-- Claim C8: the classifier on the empty string reports not malicious with
an empty category list and an empty matched-rule list — no rule of any of
the four categories matches empty input. -/
theorem C8_classify_empty :
    analyze_payload ("") = ⟨false, [], []⟩ ∧
    detect_sql_injection ("") = [] ∧ detect_xss ("") = [] ∧
    detect_path_traversal ("") = [] ∧ detect_command_injection ("") = [] := by
  decide

/-- Claim C9: backspace (0x7F) on a non-empty buffer drops exactly the last
buffered character (emitting the destructive-backspace echo) and is a no-op
on an empty buffer; the truncation happens before dispatch, so typing
`lsx`, one backspace, then carriage-return records and dispatches `ls`. -/
theorem C9_backspace :
    (∀ st : LoopState, st.buffer ≠ "" →
      processChar st '\x7f' =
        ⟨⟨st.shell, st.commands, strDropLast st.buffer⟩, "\x08 \x08", false⟩) ∧
    (∀ st : LoopState, st.buffer = "" → processChar st '\x7f' = ⟨st, "", false⟩) ∧
    (processChars ⟨initShell ("root"), [], ""⟩
        (("lsx").toList ++ ['\x7f', '\r'])).1.commands = ["ls"] := by
  refine ⟨fun st h => ?_, fun st h => ?_, by decide⟩
  · simp [processChar, h]
  · simp [processChar, h]

/-- Witness for C9: backspace on buffer `lsx` leaves buffer `ls`. -/
theorem C9_witness :
    processChar ⟨initShell ("root"), [], "lsx"⟩ '\x7f' =
      ⟨⟨initShell ("root"), [], strDropLast ("lsx")⟩, "\x08 \x08", false⟩ :=
  C9_backspace.1 ⟨initShell ("root"), [], "lsx"⟩ (by decide)

/-- Claim C10: relative path operands are resolved by literal concatenation
onto `cwd` with no normalization of dot segments: `cd ..` under the home
prefix is accepted and sets `cwd` to a string literally ending in `/..`,
and subsequent `pwd`, `ls` and `cat` operate on that literal string (the
listing fails even though the parent directory is a known node). -/
theorem C10_literal_paths :
    (execute_command (initShell ("root")) ("cd documents")).1.cwd = "/home/root/documents" ∧
    (execute_command ⟨"root", "ubuntu-server", "/home/root/documents"⟩ ("cd ..")).1.cwd =
      "/home/root/documents/.." ∧
    pyEndsWith
      ((execute_command ⟨"root", "ubuntu-server", "/home/root/documents"⟩ ("cd ..")).1.cwd)
      ("/..") = true ∧
    (execute_command ⟨"root", "ubuntu-server", "/home/root/documents/.."⟩ ("pwd")).2 =
      some ("/home/root/documents/..") ∧
    (execute_command ⟨"root", "ubuntu-server", "/home/root/documents/.."⟩ ("ls")).2 =
      some ("ls: cannot access \x27/home/root/documents/..\x27: No such file or directory") ∧
    (execute_command ⟨"root", "ubuntu-server", "/home/root/documents/.."⟩ ("cat notes.txt")).2 =
      some ("cat: notes.txt: No such file or directory") ∧
    lookupA (filesystemOf ("root")) ("/home/root") ≠ none := by
  decide

end Deceptinet
